import Mathlib

/-!
Verification development for the goalgetter repository.

The repository contains two variants of a LangGraph agent-orchestration
core:

* the MwalimuBot backend variant (`src/backend/app/graph/graph.py`,
  `src/backend/app/agents/router_agent.py`, `src/app/agents/tutor_agent.py`,
  `src/app/agents/tavily_agent.py`), whose state class is `MwalimuBotState`;
* the GoalGetter variant (`src/app/graph/graph.py`,
  `src/app/agents/router_agent.py`, `src/main.py`), whose state class is
  `GoalGetterState`.

Each Python node function receives the current state and returns a
dictionary of updated channels (a delta) which LangGraph merges into the
state.  We embed states as structures, deltas as structures of `Option`
fields (a `none` field models a key absent from the returned dictionary),
and each node as a total function taking the outcome of its fallible
model / search call as an explicit `Except` argument (a Python exception
raised inside the node's `try` block is the `Except.error` case).
-/

namespace Goalgetter

/-- Floating-point values (model confidence scores) are carried through the
state but never computed with by any code under verification; we embed them
as rationals. -/
abbrev FloatVal := ℚ

/-- A conversation-history message: a (role, content) pair. -/
structure ChatMsg where
  role : String
  content : String
deriving DecidableEq, Repr

namespace Mwalimu

/-- Modelled from the spec: the backend model file
`backend/app/models/pydantic_models.py` is not under `src/`; per spec §4.2
the `agent_specific_parameters` of a handoff entry is one of a small closed
set of shapes keyed by agent name.  The code under `src/` never inspects the
fields of the tutoring parameters, only their type tag
(`isinstance(agent.agent_specific_parameters, TutorParameters)`). -/
structure TutorParameters : Type where
  mk' ::
deriving DecidableEq, Repr

/-- Modelled from the spec: respond-to-user parameters; the code accesses
exactly the field `message_to_student` (nullable). -/
structure RespondToUserParameters where
  message_to_student : Option String
deriving DecidableEq, Repr

/-- Modelled from the spec: search (tavily) parameters; the code under
`src/` never inspects their fields. -/
structure TavilyParameters : Type where
  mk' ::
deriving DecidableEq, Repr

/-- The closed union of agent-specific parameter shapes (spec §4.2). -/
inductive AgentParams : Type where
  | tutorP (p : TutorParameters)
  | respondP (p : RespondToUserParameters)
  | tavilyP (p : TavilyParameters)
deriving DecidableEq, Repr

/-- One entry of the handoff list returned by the model:
`{agent_name, agent_specific_parameters}`. -/
structure HandoffAgent where
  agent_name : String
  agent_specific_parameters : AgentParams
deriving DecidableEq, Repr

/-- The structured decision object (`Handoff`) returned by the model to the
backend router and tutor nodes: a list of handoff entries. -/
structure Handoff where
  handoff_agents : List HandoffAgent
deriving DecidableEq, Repr

/-- The `response` value of a node-history entry: either the parsed model
decision or a literal error string. -/
inductive HResponse : Type where
  | handoff (h : Handoff)
  | errorText (msg : String)
deriving DecidableEq, Repr

/-- A node-history entry.  Router/tutor append `{node_name, response}`;
`first_node` additionally reads an `agent_after_response` key on
`respond_to_user` entries. -/
structure HEntry where
  node_name : String
  response : Option HResponse := none
  agent_after_response : Option String := none
deriving DecidableEq, Repr

/-- The `MwalimuBotState` channels read or written by the code under
`src/` (the pydantic class itself lives in the missing backend models
file; every field here is one the `src/` code accesses). -/
structure MState where
  user_input : String := ""
  conversation_history : List ChatMsg := []
  node_history : List HEntry := []
  handoff_agents : List String := []
  handoff_agents_params : List HandoffAgent := []
  current_step : Option String := none
  first_node : String := ""
  router_attempts : Nat := 0
  tutor_attempts : Nat := 0
  tavily_attempts : Nat := 0
  error_message : Option String := none
  message_to_student : Option String := none
  tavily_results : Option String := none
deriving DecidableEq, Repr

/-- A node's return dictionary: each field is `some v` when the key is
present in the returned dict (with value `v`) and `none` when absent. -/
structure MDelta where
  node_history : Option (List HEntry) := none
  handoff_agents : Option (List String) := none
  handoff_agents_params : Option (List HandoffAgent) := none
  current_step : Option (Option String) := none
  first_node : Option String := none
  router_attempts : Option Nat := none
  tutor_attempts : Option Nat := none
  tavily_attempts : Option Nat := none
  error_message : Option (Option String) := none
  message_to_student : Option (Option String) := none
  conversation_history : Option (List ChatMsg) := none
  tavily_results : Option (Option String) := none
deriving DecidableEq, Repr

/-- LangGraph's merge of a returned delta into the state: a channel named in
the dict replaces the state's value, an absent channel is unchanged. -/
def applyDelta (s : MState) (d : MDelta) : MState :=
  { s with
    node_history := d.node_history.getD s.node_history
    handoff_agents := d.handoff_agents.getD s.handoff_agents
    handoff_agents_params := d.handoff_agents_params.getD s.handoff_agents_params
    current_step := d.current_step.getD s.current_step
    first_node := d.first_node.getD s.first_node
    router_attempts := d.router_attempts.getD s.router_attempts
    tutor_attempts := d.tutor_attempts.getD s.tutor_attempts
    tavily_attempts := d.tavily_attempts.getD s.tavily_attempts
    error_message := d.error_message.getD s.error_message
    message_to_student := d.message_to_student.getD s.message_to_student
    conversation_history := d.conversation_history.getD s.conversation_history
    tavily_results := d.tavily_results.getD s.tavily_results }

/-- Python truthiness of the final `message_to_student if message_to_student
else None` expression: `None` and the empty string map to `None`. -/
def truthyOpt : Option String → Option String
  | none => none
  | some s => if s = "" then none else some s

/-- The extraction loop of `router_node`
(`src/backend/app/agents/router_agent.py` lines 97-109): iterate over the
handoff entries; a `tutor_agent` entry with `TutorParameters` breaks the
loop; a `tutor_agent` entry with other parameters only logs a warning and
continues; a `respond_to_user` entry reads
`agent_specific_parameters.message_to_student` (an `AttributeError` -- an
exception -- when the parameters are not respond-to-user shaped) and breaks;
any other entry is skipped.  Returns the extracted `message_to_student`. -/
def routerScan : List HandoffAgent → Except String (Option String)
  | [] => Except.ok none
  | a :: rest =>
    if a.agent_name = "tutor_agent" then
      match a.agent_specific_parameters with
      | AgentParams.tutorP _ => Except.ok none
      | _ => routerScan rest
    else if a.agent_name = "respond_to_user" then
      match a.agent_specific_parameters with
      | AgentParams.respondP p => Except.ok p.message_to_student
      | _ => Except.error "AttributeError: agent_specific_parameters has no attribute message_to_student"
    else routerScan rest

/-- The error-branch return dictionary of `router_node`
(`src/backend/app/agents/router_agent.py` lines 148-155), built over the
node-local history `hist` (which already contains any entry appended before
the exception was raised).  Note: the dict carries no `router_attempts`
key. -/
def routerErrorDelta (s : MState) (hist : List HEntry) (emsg : String) : MDelta :=
  { node_history := some (hist ++ [{ node_name := "router", response := some (HResponse.errorText ("Error: " ++ emsg)) }])
    current_step := some (some "error")
    error_message := some (some emsg)
    handoff_agents := some []
    handoff_agents_params := some []
    conversation_history := some s.conversation_history }

/-- The backend `router_node` (`src/backend/app/agents/router_agent.py`):
increments `router_attempts`, calls the model (outcome `resp`), appends a
node-history entry, extracts the handoff list, and returns a delta; any
exception inside the `try` block falls to the error branch. -/
def router_node (s : MState) (resp : Except String Handoff) : MDelta :=
  let attempts := s.router_attempts + 1
  match resp with
  | Except.error e => routerErrorDelta s s.node_history ("Error in router node: " ++ e)
  | Except.ok h =>
    let hist1 := s.node_history ++ [{ node_name := "router", response := some (HResponse.handoff h) : HEntry }]
    match routerScan h.handoff_agents with
    | Except.error e => routerErrorDelta s hist1 ("Error in router node: " ++ e)
    | Except.ok m =>
      { node_history := some hist1
        handoff_agents := some (h.handoff_agents.map (fun a => a.agent_name))
        handoff_agents_params := some h.handoff_agents
        current_step := some (some "router")
        router_attempts := some attempts
        error_message := some none
        conversation_history := some s.conversation_history
        message_to_student := some (truthyOpt m) }

/-- Locate the first occurrence of three consecutive backticks; returns the
characters before it and the characters after it. -/
def findTriple : List Char → Option (List Char × List Char)
  | [] => none
  | c :: rest =>
    if c = '`' ∧ rest.take 2 = ['`', '`'] then some ([], rest.drop 2)
    else (findTriple rest).map (fun p => (c :: p.1, p.2))

/-- Locate the first backtick; returns the characters before and after it. -/
def splitAtTick : List Char → Option (List Char × List Char)
  | [] => none
  | c :: rest =>
    if c = '`' then some ([], rest)
    else (splitAtTick rest).map (fun p => (c :: p.1, p.2))

/-- Locate the first backtick that appears before any newline (the inline
code pattern has no DOTALL flag, so the dot cannot cross a newline). -/
def splitAtTickNoNewline : List Char → Option (List Char × List Char)
  | [] => none
  | c :: rest =>
    if c = '`' then some ([], rest)
    else if c = '\n' then none
    else (splitAtTickNoNewline rest).map (fun p => (c :: p.1, p.2))

theorem findTriple_length : ∀ (l : List Char) (b a : List Char),
    findTriple l = some (b, a) → a.length < l.length := by
  intro l
  induction l with
  | nil => intro b a h; exact Option.noConfusion h
  | cons c rest ih =>
    intro b a h
    rw [findTriple] at h
    split at h
    · simp only [Option.some.injEq, Prod.mk.injEq] at h
      obtain ⟨-, ha⟩ := h
      subst ha
      simp only [List.length_cons, List.length_drop]
      omega
    · cases hm : findTriple rest with
      | none => rw [hm] at h; simp at h
      | some p =>
        rw [hm] at h
        simp at h
        obtain ⟨-, ha⟩ := h
        subst ha
        exact Nat.lt_succ_of_lt (ih p.1 p.2 (by rw [hm]))

theorem splitAtTick_length : ∀ (l : List Char) (b a : List Char),
    splitAtTick l = some (b, a) → a.length < l.length := by
  intro l
  induction l with
  | nil => intro b a h; exact Option.noConfusion h
  | cons c rest ih =>
    intro b a h
    rw [splitAtTick] at h
    split at h
    · simp only [Option.some.injEq, Prod.mk.injEq] at h
      obtain ⟨-, ha⟩ := h
      subst ha
      simp
    · cases hm : splitAtTick rest with
      | none => rw [hm] at h; simp at h
      | some p =>
        rw [hm] at h
        simp at h
        obtain ⟨-, ha⟩ := h
        subst ha
        exact Nat.lt_succ_of_lt (ih p.1 p.2 (by rw [hm]))

theorem splitAtTickNoNewline_length : ∀ (l : List Char) (b a : List Char),
    splitAtTickNoNewline l = some (b, a) → a.length < l.length := by
  intro l
  induction l with
  | nil => intro b a h; exact Option.noConfusion h
  | cons c rest ih =>
    intro b a h
    rw [splitAtTickNoNewline] at h
    split at h
    · simp only [Option.some.injEq, Prod.mk.injEq] at h
      obtain ⟨-, ha⟩ := h
      subst ha
      simp
    · split at h
      · simp at h
      · cases hm : splitAtTickNoNewline rest with
        | none => rw [hm] at h; simp at h
        | some p =>
          rw [hm] at h
          simp at h
          obtain ⟨-, ha⟩ := h
          subst ha
          exact Nat.lt_succ_of_lt (ih p.1 p.2 (by rw [hm]))

/-- Embedding of the fenced-code substitution in `strip_markdown`
(`src/app/agents/tutor_agent.py` line 31): repeatedly delete the
leftmost-shortest span delimited by two triple-backtick fences
(non-greedy match with DOTALL); when an opening fence has no closing
fence the text is left unchanged. -/
def dropFenced (l : List Char) : List Char :=
  match h1 : findTriple l with
  | none => l
  | some (before, after) =>
    match h2 : findTriple after with
    | none => l
    | some (p, after2) =>
      before ++ dropFenced after2
termination_by l.length
decreasing_by
  exact Nat.lt_trans (findTriple_length after p after2 h2) (findTriple_length l before after h1)

/-- Embedding of the inline-code substitution in `strip_markdown`
(`src/app/agents/tutor_agent.py` line 33): repeatedly delete the
leftmost-shortest backtick-delimited span containing no newline; a
backtick that cannot be closed before a newline is kept and scanning
resumes after it. -/
def dropInline (l : List Char) : List Char :=
  match h1 : splitAtTick l with
  | none => l
  | some (before, after) =>
    match h2 : splitAtTickNoNewline after with
    | none => before ++ '`' :: dropInline after
    | some (p, after2) => before ++ dropInline after2
termination_by l.length
decreasing_by
  · exact splitAtTick_length l before after h1
  · exact Nat.lt_trans (splitAtTickNoNewline_length after p after2 h2)
      (splitAtTick_length l before after h1)

/-- `strip_markdown` (`src/app/agents/tutor_agent.py` lines 26-34): first
the bold/italic substitution deletes every asterisk and underscore (each
character of the pattern alternation is an asterisk or an underscore and
every such character is matched), then fenced code blocks are removed,
then inline code is removed. -/
def strip_markdown (text : String) : String :=
  let noMarkers := text.toList.filter (fun c => ¬ (c = '*' ∨ c = '_'))
  String.mk (dropInline (dropFenced noMarkers))

/-- The extraction loop of `tutor_node` (`src/app/agents/tutor_agent.py`
lines 108-130): like the router's loop, but a `respond_to_user` entry's
non-empty message is passed through `strip_markdown` before the loop
breaks, and a `tavily_agent` entry also breaks the loop. -/
def tutorScan : List HandoffAgent → Except String (Option String)
  | [] => Except.ok none
  | a :: rest =>
    if a.agent_name = "tutor_agent" then
      match a.agent_specific_parameters with
      | AgentParams.tutorP _ => Except.ok none
      | _ => tutorScan rest
    else if a.agent_name = "respond_to_user" then
      match a.agent_specific_parameters with
      | AgentParams.respondP p =>
        match p.message_to_student with
        | some m => if m = "" then Except.ok (some m) else Except.ok (some (strip_markdown m))
        | none => Except.ok none
      | _ => Except.error "AttributeError: agent_specific_parameters has no attribute message_to_student"
    else if a.agent_name = "tavily_agent" then Except.ok none
    else tutorScan rest

/-- The error-branch return dictionary of `tutor_node`
(`src/app/agents/tutor_agent.py` lines 171-178); like the router's, it
carries no `tutor_attempts` key. -/
def tutorErrorDelta (s : MState) (hist : List HEntry) (emsg : String) : MDelta :=
  { node_history := some (hist ++ [{ node_name := "tutor", response := some (HResponse.errorText ("Error: " ++ emsg)) }])
    current_step := some (some "error")
    error_message := some (some emsg)
    handoff_agents := some []
    handoff_agents_params := some []
    conversation_history := some s.conversation_history }

/-- `tutor_node` (`src/app/agents/tutor_agent.py`): increments
`tutor_attempts`, calls the model, appends a node-history entry, runs the
extraction loop (which strips markdown from a respond-to-user message) and
returns a delta; exceptions inside the `try` block fall to the error
branch. -/
def tutor_node (s : MState) (resp : Except String Handoff) : MDelta :=
  let attempts := s.tutor_attempts + 1
  match resp with
  | Except.error e => tutorErrorDelta s s.node_history ("Error in tutor node: " ++ e)
  | Except.ok h =>
    let hist1 := s.node_history ++ [{ node_name := "tutor", response := some (HResponse.handoff h) : HEntry }]
    match tutorScan h.handoff_agents with
    | Except.error e => tutorErrorDelta s hist1 ("Error in tutor node: " ++ e)
    | Except.ok m =>
      { node_history := some hist1
        handoff_agents := some (h.handoff_agents.map (fun a => a.agent_name))
        handoff_agents_params := some h.handoff_agents
        current_step := some (some "tutor")
        tutor_attempts := some attempts
        error_message := some none
        conversation_history := some s.conversation_history
        message_to_student := some (truthyOpt m)
        tavily_results := some s.tavily_results }

/-- `tavily_agent` (`src/app/agents/tavily_agent.py` lines 25-57): runs the
search (outcome `searchResult`), and returns a delta updating only
`tavily_results` and `tavily_attempts` (plus `error_message` on failure).
The Python `(bot_state.tavily_attempts or 0) + 1` is the identity plus one
on a non-negative integer field.  Note: no node-history entry is
appended. -/
def tavily_agent (s : MState) (searchResult : Except String String) : MDelta :=
  match searchResult with
  | Except.ok r =>
    { tavily_results := some (some r)
      tavily_attempts := some (s.tavily_attempts + 1) }
  | Except.error e =>
    { tavily_results := some none
      tavily_attempts := some (s.tavily_attempts + 1)
      error_message := some (some ("Failed to get search results: " ++ e)) }

/-- One iteration of the `reversed(node_history)` scan in `first_node`
(`src/backend/app/graph/graph.py` lines 44-49): a `respond_to_user` entry
overwrites the accumulator with its `agent_after_response` when that names
a valid agent, and with `routing_agent` otherwise.  (A `respond_to_user`
entry lacking the key would raise a `KeyError` in the source; no state
considered here contains one, and the scan's result is unconditionally
overwritten below anyway.) -/
def scanStep (acc : String) (node : HEntry) : String :=
  if node.node_name = "respond_to_user" then
    match node.agent_after_response with
    | some a => if a = "routing_agent" ∨ a = "tutor_agent" then a else "routing_agent"
    | none => acc
  else acc

/-- `first_node` (`src/backend/app/graph/graph.py` lines 21-59): with an
empty node history the entry node is `routing_agent`; otherwise the source
first writes the result of the reversed-history scan into
`state.first_node` (because the loop never breaks, the entry that sticks is
the earliest `respond_to_user` entry, not the latest) and then, with no
guard, overwrites `state.first_node` through the `current_step` cascade,
whose catch-all is `tutor_agent`. -/
def first_node (s : MState) : MState :=
  if s.node_history = [] then { s with first_node := "routing_agent" }
  else
    let s1 := { s with first_node := s.node_history.reverse.foldl scanStep "" }
    let resolved :=
      if s1.current_step = some "routing_agent" then "routing_agent"
      else if s1.current_step = some "tutor_agent" then "tutor_agent"
      else if s1.current_step = some "tavily_agent" then "tavily_agent"
      else "tutor_agent"
    { s1 with first_node := resolved }

/-- `routing_from_first_node` (`src/backend/app/graph/graph.py` lines
64-68): returns the `first_node` field. -/
def routing_from_first_node (s : MState) : String :=
  s.first_node

/-- `routing_after_routing_agent` (`src/backend/app/graph/graph.py` lines
70-77): the first pending handoff name if the list is non-empty, otherwise
the string `end`.  No attempt counter is consulted. -/
def routing_after_routing_agent (s : MState) : String :=
  match s.handoff_agents with
  | [] => "end"
  | a :: _ => a

/-- `routing_after_tutor_agent` (`src/backend/app/graph/graph.py` lines
79-86): identical logic for the tutor node. -/
def routing_after_tutor_agent (s : MState) : String :=
  match s.handoff_agents with
  | [] => "end"
  | a :: _ => a

/-- The nodes of the backend graph built by `build_graph`
(`src/backend/app/graph/graph.py` lines 92-136) plus the distinguished
terminal state `END`. -/
inductive BNode : Type where
  | first
  | routing_agent
  | tutor_agent
  | respond_to_user
  | tavily_agent
  | terminalEnd
deriving DecidableEq, Repr

/-- The conditional-edge dictionary attached to the `first` node
(`src/backend/app/graph/graph.py` lines 104-112); a string outside the
dictionary has no transition. -/
def afterFirstMap (a : String) : Option BNode :=
  if a = "routing_agent" then some BNode.routing_agent
  else if a = "tutor_agent" then some BNode.tutor_agent
  else if a = "end" then some BNode.terminalEnd
  else none

/-- The conditional-edge dictionary attached to `routing_agent`
(`src/backend/app/graph/graph.py` lines 114-121). -/
def afterRoutingAgentMap (a : String) : Option BNode :=
  if a = "respond_to_user" then some BNode.respond_to_user
  else if a = "tutor_agent" then some BNode.tutor_agent
  else if a = "end" then some BNode.terminalEnd
  else none

/-- The conditional-edge dictionary attached to `tutor_agent`
(`src/backend/app/graph/graph.py` lines 126-133). -/
def afterTutorAgentMap (a : String) : Option BNode :=
  if a = "respond_to_user" then some BNode.respond_to_user
  else if a = "tavily_agent" then some BNode.tavily_agent
  else if a = "end" then some BNode.terminalEnd
  else none

/-- The external collaborators of one backend turn: the model responses
fed to the router and tutor nodes, the search outcome fed to the tavily
node, and the `respond_to_user` node implementation (which is not under
`src/` for this graph variant and is kept abstract; no property proved
here depends on it). -/
structure Oracles where
  routerResp : MState → Except String Handoff
  tutorResp : MState → Except String Handoff
  searchResp : MState → Except String String
  respondNode : MState → MDelta

/-- One step of the backend graph: run the node at the current position,
merge its delta, and follow the edge selected by the node's routing
function.  `none` means there is no further transition: either the
position was already `END`, or the routing string had no entry in the
conditional-edge dictionary (a framework error). -/
def stepB (o : Oracles) : BNode × MState → Option (BNode × MState)
  | (BNode.first, s) =>
    let s1 := first_node s
    (afterFirstMap (routing_from_first_node s1)).map (fun n => (n, s1))
  | (BNode.routing_agent, s) =>
    let s1 := applyDelta s (router_node s (o.routerResp s))
    (afterRoutingAgentMap (routing_after_routing_agent s1)).map (fun n => (n, s1))
  | (BNode.tutor_agent, s) =>
    let s1 := applyDelta s (tutor_node s (o.tutorResp s))
    (afterTutorAgentMap (routing_after_tutor_agent s1)).map (fun n => (n, s1))
  | (BNode.tavily_agent, s) =>
    some (BNode.tutor_agent, applyDelta s (tavily_agent s (o.searchResp s)))
  | (BNode.respond_to_user, s) =>
    some (BNode.terminalEnd, applyDelta s (o.respondNode s))
  | (BNode.terminalEnd, _) => none

/-- `n` steps of the backend graph. -/
def iterB (o : Oracles) : Nat → BNode × MState → Option (BNode × MState)
  | 0, cfg => some cfg
  | n + 1, cfg => (stepB o cfg).bind (iterB o n)

/-- Following the spec's words (§4.2): a handoff entry's parameters match
its declared agent name when the declared name's expected shape equals the
parameters' actual shape.  This is a spec-side definition used only to
state the HandoffParser guarantee; the source has no such check. -/
def specShapeMatches (a : HandoffAgent) : Bool :=
  match a.agent_name, a.agent_specific_parameters with
  | "tutor_agent", AgentParams.tutorP _ => true
  | "respond_to_user", AgentParams.respondP _ => true
  | "tavily_agent", AgentParams.tavilyP _ => true
  | _, _ => false

end Mwalimu

namespace GoalGetter

/-- The `UserIntent` enumeration (`src/app/models/pydantic_models.py`
lines 43-52). -/
inductive UserIntent : Type where
  | create_goal
  | update_goal
  | track_progress
  | create_habit
  | log_habit
  | get_support
  | reflect
  | view_progress
  | unknown
deriving DecidableEq, Repr

/-- `RouterOutput` (`src/app/models/pydantic_models.py` lines 134-143):
the structured decision object of the GoalGetter router. -/
structure RouterOutput where
  next_agents : List String := []
  reasoning : String
  confidence : FloatVal := 0
  intent : UserIntent
  error : Option String := none
  success : Bool := true
  message_to_user : Option String := none
deriving DecidableEq, Repr

/-- The `response` value of a GoalGetter node-history entry: the parsed
`RouterOutput` or a literal error string. -/
inductive GResponse : Type where
  | routerOut (r : RouterOutput)
  | errorText (msg : String)
deriving DecidableEq, Repr

/-- A GoalGetter node-history entry. -/
structure GHEntry where
  node_name : String
  response : GResponse
deriving DecidableEq, Repr

/-- The `router_output` dictionary stored in `agent_outputs`
(`src/app/agents/router_agent.py` lines 88-96 and 120-128): a string-keyed
dict; each field is `some v` when the key is present.  The success dict has
no `next_agent` key; the error dict has no `reasoning` key. -/
structure RouterOutRec where
  next_agent : Option (Option String) := none
  next_agents : Option (List String) := none
  reasoning : Option String := none
  confidence : Option FloatVal := none
  intent : Option UserIntent := none
  success : Option Bool := none
  error : Option (Option String) := none
  message_to_user : Option (Option String) := none
deriving DecidableEq, Repr

/-- `AgentOutputs` (`src/app/models/pydantic_models.py` lines 153-159);
the GoalGetter router touches only `router_output`, and the other four
output dicts are never read or written by the code under verification, so
they are not carried here. -/
structure AgentOutputs where
  router_output : RouterOutRec := {}
deriving DecidableEq, Repr

/-- The `GoalGetterState` channels (`src/app/models/pydantic_models.py`
lines 165-214) read or written by the code under verification; read-only
domain snapshot fields (goals, habits, ...) are not carried. -/
structure GState where
  user_id : Nat := 0
  message : String := ""
  response : String := ""
  router_attempts : Nat := 0
  goal_attempts : Nat := 0
  habit_attempts : Nat := 0
  memory_attempts : Nat := 0
  progress_attempts : Nat := 0
  node_history : List GHEntry := []
  agent_outputs : AgentOutputs := {}
  interaction_count : Nat := 0
  error : Option String := none
  success : Bool := true
deriving DecidableEq, Repr

/-- The GoalGetter `router_node` (`src/app/agents/router_agent.py` lines
28-136): increments `router_attempts`, calls the model, appends one
node-history entry (the parsed decision on success, a literal error string
on failure), stores the corresponding `router_output` dict, and returns the
full updated state (`current_state.dict()`) in both branches. -/
def router_node (s : GState) (resp : Except String RouterOutput) : GState :=
  let s1 := { s with router_attempts := s.router_attempts + 1 }
  match resp with
  | Except.ok r =>
    { s1 with
      node_history := s1.node_history ++ [{ node_name := "router", response := GResponse.routerOut r }]
      agent_outputs := { s1.agent_outputs with router_output :=
        { next_agents := some r.next_agents
          reasoning := some r.reasoning
          confidence := some r.confidence
          intent := some r.intent
          success := some r.success
          error := some none
          message_to_user := some r.message_to_user } } }
  | Except.error e =>
    let emsg := "Error in router node: " ++ e
    { s1 with
      node_history := s1.node_history ++ [{ node_name := "router", response := GResponse.errorText ("Error: " ++ emsg) }]
      agent_outputs := { s1.agent_outputs with router_output :=
        { next_agent := some none
          next_agents := some []
          confidence := some 0
          intent := some UserIntent.unknown
          success := some false
          error := some (some emsg)
          message_to_user := some none } } }

/-- The nodes of the GoalGetter graph built by `build_graph`
(`src/app/graph/graph.py` lines 89-99) plus the terminal state. -/
inductive GGNode : Type where
  | start
  | routing_agent
  | terminalEnd
deriving DecidableEq, Repr

/-- The (unconditional) edges of the GoalGetter graph: `START` to
`routing_agent` and `routing_agent` to `END`; no conditional edges
exist. -/
def gg_edges : GGNode → Option GGNode
  | GGNode.start => some GGNode.routing_agent
  | GGNode.routing_agent => some GGNode.terminalEnd
  | GGNode.terminalEnd => none

/-- One step of the GoalGetter graph: run the node at the current position
(only `routing_agent` is an agent node) and follow its unconditional
edge. -/
def ggStep (resp : Except String RouterOutput) : GGNode × GState → Option (GGNode × GState)
  | (GGNode.start, s) => (gg_edges GGNode.start).map (fun n => (n, s))
  | (GGNode.routing_agent, s) => (gg_edges GGNode.routing_agent).map (fun n => (n, router_node s resp))
  | (GGNode.terminalEnd, _) => none

/-- Run the GoalGetter graph for at most `fuel` steps, recording the name
of every agent node invoked; returns the trace, the final position and the
final state. -/
def ggRun (resp : Except String RouterOutput) : Nat → GGNode → GState → List String × GGNode × GState
  | 0, node, s => ([], node, s)
  | fuel + 1, node, s =>
    match ggStep resp (node, s) with
    | none => ([], node, s)
    | some (node2, s2) =>
      let inv : List String := if node = GGNode.routing_agent then ["routing_agent"] else []
      let r := ggRun resp fuel node2 s2
      (inv ++ r.1, r.2)

end GoalGetter

namespace Mwalimu

/-- A fresh backend state (all counters zero, empty histories). -/
def s0 : MState := {}

/-- A decision handing off to the tavily agent. -/
def hTav : Handoff :=
  { handoff_agents := [{ agent_name := "tavily_agent", agent_specific_parameters := AgentParams.tavilyP TavilyParameters.mk' }] }

/-- A decision handing off to the tutor agent with well-shaped parameters. -/
def hTutor : Handoff :=
  { handoff_agents := [{ agent_name := "tutor_agent", agent_specific_parameters := AgentParams.tutorP TutorParameters.mk' }] }

/-- A stubbed collaborator set under which the model keeps handing off and
never asks to respond to the user: the router always hands to the tutor,
the tutor always hands to the tavily agent (whose outgoing edge leads
unconditionally back to the tutor), and the search always succeeds. -/
def oA : Oracles :=
  { routerResp := fun _ => Except.ok hTutor
    tutorResp := fun _ => Except.ok hTav
    searchResp := fun _ => Except.ok "searched"
    respondNode := fun _ => {} }

/-- A state whose attempt counters far exceed any plausible configured
ceiling, with a pending handoff. -/
def sBig : MState :=
  { router_attempts := 1000000
    tutor_attempts := 1000000
    tavily_attempts := 1000000
    handoff_agents := ["tavily_agent"] }

/-- A decision whose only entry declares `tutor_agent` but carries
respond-to-user-shaped parameters (spec §8 Scenario B). -/
def hMismatch : Handoff :=
  { handoff_agents := [{ agent_name := "tutor_agent", agent_specific_parameters := AgentParams.respondP { message_to_student := some "hi" } }] }

/-- A decision whose only entry declares `respond_to_user` but carries
tutor-shaped parameters; reading `message_to_student` on it raises. -/
def hBadRespond : Handoff :=
  { handoff_agents := [{ agent_name := "respond_to_user", agent_specific_parameters := AgentParams.tutorP TutorParameters.mk' }] }

/-- A decision whose only entry is named by the literal string `end`. -/
def hEnd : Handoff :=
  { handoff_agents := [{ agent_name := "end", agent_specific_parameters := AgentParams.tavilyP TavilyParameters.mk' }] }

/-- A decision handing off to an agent name outside every allow-list. -/
def hGoal : Handoff :=
  { handoff_agents := [{ agent_name := "goal_agent", agent_specific_parameters := AgentParams.tavilyP TavilyParameters.mk' }] }

/-- Collaborators under which the router's model names a target outside
the routing allow-list. -/
def oGoal : Oracles :=
  { routerResp := fun _ => Except.ok hGoal
    tutorResp := fun _ => Except.ok hGoal
    searchResp := fun _ => Except.ok "searched"
    respondNode := fun _ => {} }

/-- A decision whose only entry is a respond-to-user handoff carrying a
markdown-formatted message. -/
def hRespond : Handoff :=
  { handoff_agents := [{ agent_name := "respond_to_user", agent_specific_parameters := AgentParams.respondP { message_to_student := some "**hello** world" } }] }

/-- A persisted state resuming a second turn: the final node-history entry
is a `respond_to_user` entry whose `agent_after_response` names the
router, and `current_step` holds the value `router` that the router node
actually writes. -/
def sResume : MState :=
  { node_history := [{ node_name := "respond_to_user", agent_after_response := some "routing_agent" }]
    current_step := some "router" }

/-- A state with five prior tutor attempts. -/
def sC7 : MState := { tutor_attempts := 5 }

/-- A state with one prior node-history entry. -/
def sHist : MState := { node_history := [{ node_name := "router" }] }

/-- The state left by the backend router after parsing `hMismatch` on a
fresh state. -/
def sC3 : MState := applyDelta s0 (router_node s0 (Except.ok hMismatch))

/-- The state left by the backend router after parsing `hEnd` on a fresh
state. -/
def sC4 : MState := applyDelta s0 (router_node s0 (Except.ok hEnd))

/-- The state left by the backend router after parsing `hGoal` on a fresh
state. -/
def sC5 : MState := applyDelta s0 (router_node s0 (Except.ok hGoal))

/-- Decidable form of the C1 refutation run: after six further steps from
the tutor node on `sBig`, the loop is still running (not at `END`) and no
outgoing message has been produced. -/
def c1Check : Bool :=
  match iterB oA 6 (BNode.tutor_agent, sBig) with
  | some cfg => !(cfg.1 == BNode.terminalEnd) && (cfg.2.message_to_student == none)
  | none => false

/-- The node-history entry recording a parsed decision at a node. -/
def decisionEntry (node : String) (h : Handoff) : HEntry :=
  { node_name := node, response := some (HResponse.handoff h) }

/-- The node-history entry recording a literal error string at a node. -/
def errorEntry (node : String) (emsg : String) : HEntry :=
  { node_name := node, response := some (HResponse.errorText ("Error: " ++ emsg)) }

/-- Invariant of the never-terminating run under `oA`: the position
alternates between the tutor and tavily nodes and no outgoing message is
ever produced. -/
def C1Inv (cfg : BNode × MState) : Prop :=
  (cfg.1 = BNode.tutor_agent ∨ cfg.1 = BNode.tavily_agent) ∧
    cfg.2.message_to_student = none

end Mwalimu

namespace GoalGetter

/-- A fresh GoalGetter state. -/
def g0 : GState := {}

/-- The GoalGetter node-history entry recording a literal error string. -/
def gErrorEntry (emsg : String) : GHEntry :=
  { node_name := "router", response := GResponse.errorText ("Error: " ++ emsg) }

/-- A router decision naming further agents to call. -/
def r0 : RouterOutput :=
  { next_agents := ["goal_agent", "habit_agent"]
    reasoning := "user wants a new goal"
    intent := UserIntent.create_goal }

end GoalGetter

namespace Mwalimu

theorem dropFenced_no_fence (l : List Char) (h : findTriple l = none) :
    dropFenced l = l := by
  rw [dropFenced]
  split
  · rfl
  · rename_i b a h1
    rw [h] at h1
    exact Option.noConfusion h1

theorem dropInline_no_tick (l : List Char) (h : splitAtTick l = none) :
    dropInline l = l := by
  rw [dropInline]
  split
  · rfl
  · rename_i b a h1
    rw [h] at h1
    exact Option.noConfusion h1

theorem c1inv_step (cfg : BNode × MState) (h : C1Inv cfg) :
    ∃ cfg2, stepB oA cfg = some cfg2 ∧ C1Inv cfg2 := by
  obtain ⟨hn, hm⟩ := h
  rcases cfg with ⟨node, s⟩
  rcases hn with h1 | h1 <;> subst h1
  · exact ⟨(BNode.tavily_agent, applyDelta s (tutor_node s (Except.ok hTav))),
      rfl, Or.inr rfl, rfl⟩
  · exact ⟨(BNode.tutor_agent, applyDelta s (tavily_agent s (Except.ok "searched"))),
      rfl, Or.inl rfl, hm⟩

theorem c1inv_iter (n : Nat) : ∀ cfg : BNode × MState, C1Inv cfg →
    ∃ cfg2, iterB oA n cfg = some cfg2 ∧ C1Inv cfg2 := by
  induction n with
  | zero => exact fun cfg h => ⟨cfg, rfl, h⟩
  | succ n ih =>
    intro cfg h
    obtain ⟨cfg1, hstep, hinv1⟩ := c1inv_step cfg h
    obtain ⟨cfg2, hiter, hinv2⟩ := ih cfg1 hinv1
    exact ⟨cfg2, by rw [iterB, hstep]; exact hiter, hinv2⟩

theorem ggRun_end (resp : Except String GoalGetter.RouterOutput) (n : Nat)
    (s : GoalGetter.GState) :
    GoalGetter.ggRun resp n GoalGetter.GGNode.terminalEnd s =
      ([], GoalGetter.GGNode.terminalEnd, s) := by
  cases n <;> rfl

end Mwalimu

/-- C1: the claim asserts a circuit breaker: once a node's attempt counter
exceeds the configured ceiling, a synthetic fallback message is forced and
the graph transitions to `END`.  The routing functions consult only
`handoff_agents`, never a counter: on `sBig` (every counter at 1000000) the
tutor routing still selects the pending handoff target, not `end`, and six
further steps of the graph under the always-handing-off stub leave the loop
running with no outgoing message. -/
theorem c1_counterexample :
    Mwalimu.sBig.tutor_attempts = 1000000
    ∧ Mwalimu.routing_after_tutor_agent Mwalimu.sBig = "tavily_agent"
    ∧ Mwalimu.routing_after_tutor_agent Mwalimu.sBig ≠ "end"
    ∧ Mwalimu.c1Check = true := by
  refine ⟨rfl, rfl, by decide, by decide⟩

/-- C1 (amended): the backend graph has no attempt-counter circuit
breaker.  Under a stubbed DecisionModel that always returns a further
handoff (tutor to tavily, whose outgoing edge returns unconditionally to
the tutor), the loop never transitions to `END` and never produces a
synthetic fallback message, for any number of steps, even starting from
attempt counters of one million. -/
theorem c1_amended_no_breaker : ∀ n : Nat,
    ∃ cfg : Mwalimu.BNode × Mwalimu.MState,
      Mwalimu.iterB Mwalimu.oA n (Mwalimu.BNode.tutor_agent, Mwalimu.sBig) = some cfg
      ∧ cfg.1 ≠ Mwalimu.BNode.terminalEnd
      ∧ cfg.2.message_to_student = none := by
  intro n
  obtain ⟨cfg, hiter, hinv⟩ := Mwalimu.c1inv_iter n (Mwalimu.BNode.tutor_agent, Mwalimu.sBig) ⟨Or.inl rfl, rfl⟩
  refine ⟨cfg, hiter, ?_, hinv.2⟩
  rcases hinv.1 with h | h <;> simp [h]

/-- C8: `first_node` contradicts its own docstring (and the spec's resume
rule).  On `sResume`, whose final node-history entry is a
`respond_to_user` entry with `agent_after_response = routing_agent` and
whose persisted `current_step` is the value `router` actually written by
the router node, the turn resumes at `tutor_agent`: the reversed-history
scan's result is unconditionally overwritten by the `current_step`
cascade, whose branches test names (`routing_agent`, `tutor_agent`,
`tavily_agent`) that no node ever writes into `current_step`, so the
catch-all `tutor_agent` wins.  With empty history the entry node is
`routing_agent`, as claimed. -/
theorem c8_resume_divergence :
    (Mwalimu.first_node Mwalimu.s0).first_node = "routing_agent"
    ∧ Mwalimu.sResume.node_history.getLast? =
        some { node_name := "respond_to_user", agent_after_response := some "routing_agent" }
    ∧ (Mwalimu.first_node Mwalimu.sResume).first_node = "tutor_agent"
    ∧ (Mwalimu.first_node Mwalimu.sResume).first_node ≠ "routing_agent" := by
  refine ⟨by decide, by decide, by decide, by decide⟩

/-- C9: the GoalGetter graph wires `START` to the single `routing_agent`
node and `routing_agent` to `END` with no conditional edges: for every
state, every model outcome (whatever `next_agents` it names) and any
sufficient fuel, a turn invokes exactly one agent node and terminates at
`END` with the state of that single router run. -/
theorem c9_single_invocation_turn : ∀ (n : Nat) (s : GoalGetter.GState)
    (resp : Except String GoalGetter.RouterOutput),
    GoalGetter.ggRun resp (n + 2) GoalGetter.GGNode.start s =
      (["routing_agent"], GoalGetter.GGNode.terminalEnd, GoalGetter.router_node s resp) := by
  intro n s resp
  show GoalGetter.ggRun resp (n + 1 + 1) GoalGetter.GGNode.start s = _
  rw [GoalGetter.ggRun.eq_def]
  simp only [GoalGetter.ggStep, GoalGetter.gg_edges, Option.map_some']
  rw [GoalGetter.ggRun.eq_def]
  simp only [GoalGetter.ggStep, GoalGetter.gg_edges, Option.map_some']
  simp [Mwalimu.ggRun_end]

namespace Mwalimu

theorem router_node_scan_ok (s : MState) (h : Handoff) (m : Option String)
    (hscan : routerScan h.handoff_agents = Except.ok m) :
    router_node s (Except.ok h) =
      { node_history := some (s.node_history ++ [{ node_name := "router", response := some (HResponse.handoff h) }])
        handoff_agents := some (h.handoff_agents.map (fun a => a.agent_name))
        handoff_agents_params := some h.handoff_agents
        current_step := some (some "router")
        router_attempts := some (s.router_attempts + 1)
        error_message := some none
        conversation_history := some s.conversation_history
        message_to_student := some (truthyOpt m) } := by
  simp [router_node, hscan]

theorem router_node_scan_err (s : MState) (h : Handoff) (e : String)
    (hscan : routerScan h.handoff_agents = Except.error e) :
    router_node s (Except.ok h) =
      routerErrorDelta s
        (s.node_history ++ [{ node_name := "router", response := some (HResponse.handoff h) }])
        ("Error in router node: " ++ e) := by
  simp [router_node, hscan]

theorem tutor_node_scan_ok (s : MState) (h : Handoff) (m : Option String)
    (hscan : tutorScan h.handoff_agents = Except.ok m) :
    tutor_node s (Except.ok h) =
      { node_history := some (s.node_history ++ [{ node_name := "tutor", response := some (HResponse.handoff h) }])
        handoff_agents := some (h.handoff_agents.map (fun a => a.agent_name))
        handoff_agents_params := some h.handoff_agents
        current_step := some (some "tutor")
        tutor_attempts := some (s.tutor_attempts + 1)
        error_message := some none
        conversation_history := some s.conversation_history
        message_to_student := some (truthyOpt m)
        tavily_results := some s.tavily_results } := by
  simp [tutor_node, hscan]

theorem tutor_node_scan_err (s : MState) (h : Handoff) (e : String)
    (hscan : tutorScan h.handoff_agents = Except.error e) :
    tutor_node s (Except.ok h) =
      tutorErrorDelta s
        (s.node_history ++ [{ node_name := "tutor", response := some (HResponse.handoff h) }])
        ("Error in tutor node: " ++ e) := by
  simp [tutor_node, hscan]

theorem tutor_node_counters (s : MState) (r : Except String Handoff) :
    ((applyDelta s (tutor_node s r)).tutor_attempts = s.tutor_attempts + 1
      ∨ (applyDelta s (tutor_node s r)).tutor_attempts = s.tutor_attempts)
    ∧ (applyDelta s (tutor_node s r)).router_attempts = s.router_attempts
    ∧ (applyDelta s (tutor_node s r)).tavily_attempts = s.tavily_attempts := by
  rcases r with e | h
  · exact ⟨Or.inr rfl, rfl, rfl⟩
  · cases hscan : tutorScan h.handoff_agents with
    | error e => rw [tutor_node_scan_err s h e hscan]; exact ⟨Or.inr rfl, rfl, rfl⟩
    | ok m => rw [tutor_node_scan_ok s h m hscan]; exact ⟨Or.inl rfl, rfl, rfl⟩

theorem router_node_counters (s : MState) (r : Except String Handoff) :
    ((applyDelta s (router_node s r)).router_attempts = s.router_attempts + 1
      ∨ (applyDelta s (router_node s r)).router_attempts = s.router_attempts)
    ∧ (applyDelta s (router_node s r)).tutor_attempts = s.tutor_attempts
    ∧ (applyDelta s (router_node s r)).tavily_attempts = s.tavily_attempts := by
  rcases r with e | h
  · exact ⟨Or.inr rfl, rfl, rfl⟩
  · cases hscan : routerScan h.handoff_agents with
    | error e => rw [router_node_scan_err s h e hscan]; exact ⟨Or.inr rfl, rfl, rfl⟩
    | ok m => rw [router_node_scan_ok s h m hscan]; exact ⟨Or.inl rfl, rfl, rfl⟩

theorem tutorScan_ok_some : ∀ (l : List HandoffAgent) (t : String),
    tutorScan l = Except.ok (some t) →
    ∃ a, a ∈ l ∧ a.agent_name = "respond_to_user" ∧
      ∃ p m, a.agent_specific_parameters = AgentParams.respondP p ∧
        p.message_to_student = some m ∧
        ((m = "" ∧ t = m) ∨ (m ≠ "" ∧ t = strip_markdown m)) := by
  intro l
  induction l with
  | nil => intro t h; simp [tutorScan] at h
  | cons a rest ih =>
    intro t h
    rw [tutorScan] at h
    by_cases h1 : a.agent_name = "tutor_agent"
    · rw [if_pos h1] at h
      cases hp : a.agent_specific_parameters with
      | tutorP q => simp only [hp] at h; exact absurd h (by simp)
      | respondP q =>
        simp only [hp] at h
        obtain ⟨a2, hmem, hrest⟩ := ih t h
        exact ⟨a2, List.mem_cons_of_mem _ hmem, hrest⟩
      | tavilyP q =>
        simp only [hp] at h
        obtain ⟨a2, hmem, hrest⟩ := ih t h
        exact ⟨a2, List.mem_cons_of_mem _ hmem, hrest⟩
    · rw [if_neg h1] at h
      by_cases h2 : a.agent_name = "respond_to_user"
      · rw [if_pos h2] at h
        cases hp : a.agent_specific_parameters with
        | tutorP q => simp only [hp] at h; exact absurd h (by simp)
        | tavilyP q => simp only [hp] at h; exact absurd h (by simp)
        | respondP p =>
          simp only [hp] at h
          cases hm : p.message_to_student with
          | none => simp only [hm] at h; simp at h
          | some m =>
            simp only [hm] at h
            by_cases hme : m = ""
            · rw [if_pos hme] at h
              simp only [Except.ok.injEq, Option.some.injEq] at h
              exact ⟨a, List.mem_cons_self a rest, h2, p, m, hp, hm, Or.inl ⟨hme, h.symm⟩⟩
            · rw [if_neg hme] at h
              simp only [Except.ok.injEq, Option.some.injEq] at h
              exact ⟨a, List.mem_cons_self a rest, h2, p, m, hp, hm, Or.inr ⟨hme, h.symm⟩⟩
      · rw [if_neg h2] at h
        by_cases h3 : a.agent_name = "tavily_agent"
        · rw [if_pos h3] at h; simp at h
        · rw [if_neg h3] at h
          obtain ⟨a2, hmem, hrest⟩ := ih t h
          exact ⟨a2, List.mem_cons_of_mem _ hmem, hrest⟩

theorem strip_markdown_eval : strip_markdown "**hello** world" = "hello world" := by
  show String.mk (dropInline (dropFenced ("hello world".toList))) = "hello world"
  rw [dropFenced_no_fence _ (by decide), dropInline_no_tick _ (by decide)]
  rfl

end Mwalimu

/-- C2: every exception raised inside the try-block of an agent node --
by the model call or by decision-shape validation (including the attribute
access on a mis-shaped respond-to-user entry) -- is caught locally: the
node is a total function returning a delta (it never propagates), the
delta appends an error-tagged node-history entry and records the error
message (`error_message` for the backend nodes, `router_output.error` for
the GoalGetter node). -/
theorem c2_nodes_never_raise : ∀ (s : Mwalimu.MState) (sg : GoalGetter.GState)
    (h : Mwalimu.Handoff) (e : String),
    ((Mwalimu.applyDelta s (Mwalimu.router_node s (Except.error e))).error_message
        = some ("Error in router node: " ++ e)
      ∧ (Mwalimu.applyDelta s (Mwalimu.router_node s (Except.error e))).node_history
        = s.node_history ++ [Mwalimu.errorEntry "router" ("Error in router node: " ++ e)])
    ∧ (Mwalimu.routerScan h.handoff_agents = Except.error e →
        (Mwalimu.applyDelta s (Mwalimu.router_node s (Except.ok h))).error_message
          = some ("Error in router node: " ++ e)
        ∧ (Mwalimu.applyDelta s (Mwalimu.router_node s (Except.ok h))).node_history
          = s.node_history
            ++ [Mwalimu.decisionEntry "router" h,
                Mwalimu.errorEntry "router" ("Error in router node: " ++ e)])
    ∧ ((Mwalimu.applyDelta s (Mwalimu.tutor_node s (Except.error e))).error_message
        = some ("Error in tutor node: " ++ e)
      ∧ (Mwalimu.applyDelta s (Mwalimu.tutor_node s (Except.error e))).node_history
        = s.node_history ++ [Mwalimu.errorEntry "tutor" ("Error in tutor node: " ++ e)])
    ∧ (Mwalimu.tutorScan h.handoff_agents = Except.error e →
        (Mwalimu.applyDelta s (Mwalimu.tutor_node s (Except.ok h))).error_message
          = some ("Error in tutor node: " ++ e)
        ∧ (Mwalimu.applyDelta s (Mwalimu.tutor_node s (Except.ok h))).node_history
          = s.node_history
            ++ [Mwalimu.decisionEntry "tutor" h,
                Mwalimu.errorEntry "tutor" ("Error in tutor node: " ++ e)])
    ∧ ((GoalGetter.router_node sg (Except.error e)).agent_outputs.router_output.error
        = some (some ("Error in router node: " ++ e))
      ∧ (GoalGetter.router_node sg (Except.error e)).node_history
        = sg.node_history ++ [GoalGetter.gErrorEntry ("Error in router node: " ++ e)]) := by
  intro s sg h e
  refine ⟨⟨rfl, rfl⟩, ?_, ⟨rfl, rfl⟩, ?_, ⟨rfl, rfl⟩⟩
  · intro hscan
    rw [Mwalimu.router_node_scan_err s h e hscan]
    exact ⟨rfl, by
      simp [Mwalimu.routerErrorDelta, Mwalimu.applyDelta, Mwalimu.errorEntry,
        Mwalimu.decisionEntry]⟩
  · intro hscan
    rw [Mwalimu.tutor_node_scan_err s h e hscan]
    exact ⟨rfl, by
      simp [Mwalimu.tutorErrorDelta, Mwalimu.applyDelta, Mwalimu.errorEntry,
        Mwalimu.decisionEntry]⟩

/-- C2 witness: on a fresh state, the backend router given a decision
whose respond-to-user entry carries tutor-shaped parameters (so that the
attribute access raises) returns a delta recording the error message. -/
theorem c2_witness :
    (Mwalimu.applyDelta Mwalimu.s0 (Mwalimu.router_node Mwalimu.s0 (Except.ok Mwalimu.hBadRespond))).error_message
      = some ("Error in router node: "
          ++ "AttributeError: agent_specific_parameters has no attribute message_to_student") :=
  ((c2_nodes_never_raise Mwalimu.s0 GoalGetter.g0 Mwalimu.hBadRespond
    "AttributeError: agent_specific_parameters has no attribute message_to_student").2.1 rfl).1

/-- C3: the claim asserts that a handoff entry whose parameters do not
match its declared agent name is dropped and that the resulting pending
list holds only shape-matching entries.  It is false: the node keeps every
entry.  After parsing `hMismatch` (a `tutor_agent` entry with
respond-to-user-shaped parameters, spec §8 Scenario B) the pending list
still names `tutor_agent` and its stored parameter entry fails the spec's
shape check. -/
theorem c3_counterexample :
    Mwalimu.sC3.handoff_agents = ["tutor_agent"]
    ∧ Mwalimu.sC3.handoff_agents_params = Mwalimu.hMismatch.handoff_agents
    ∧ Mwalimu.sC3.handoff_agents_params.all Mwalimu.specShapeMatches = false := by
  refine ⟨by decide, by decide, by decide⟩

/-- C3 (amended): no entry is ever dropped.  Whenever the extraction loop
completes without raising, the state's pending list is exactly the names
of all returned handoff entries, unchanged and in order, and the stored
parameter entries are the returned entries themselves -- regardless of
whether their shapes match their declared agent names. -/
theorem c3_amended_all_entries_kept : ∀ (s : Mwalimu.MState) (h : Mwalimu.Handoff)
    (m : Option String),
    (Mwalimu.routerScan h.handoff_agents = Except.ok m →
      (Mwalimu.applyDelta s (Mwalimu.router_node s (Except.ok h))).handoff_agents
        = h.handoff_agents.map (fun a => a.agent_name)
      ∧ (Mwalimu.applyDelta s (Mwalimu.router_node s (Except.ok h))).handoff_agents_params
        = h.handoff_agents)
    ∧ (Mwalimu.tutorScan h.handoff_agents = Except.ok m →
      (Mwalimu.applyDelta s (Mwalimu.tutor_node s (Except.ok h))).handoff_agents
        = h.handoff_agents.map (fun a => a.agent_name)
      ∧ (Mwalimu.applyDelta s (Mwalimu.tutor_node s (Except.ok h))).handoff_agents_params
        = h.handoff_agents) := by
  intro s h m
  constructor
  · intro hscan
    rw [Mwalimu.router_node_scan_ok s h m hscan]
    exact ⟨rfl, rfl⟩
  · intro hscan
    rw [Mwalimu.tutor_node_scan_ok s h m hscan]
    exact ⟨rfl, rfl⟩

/-- C3 witness: the mismatched entry of `hMismatch` survives into the
pending list of a fresh state. -/
theorem c3_witness :
    (Mwalimu.applyDelta Mwalimu.s0 (Mwalimu.router_node Mwalimu.s0 (Except.ok Mwalimu.hMismatch))).handoff_agents
      = Mwalimu.hMismatch.handoff_agents.map (fun a => a.agent_name) :=
  ((c3_amended_all_entries_kept Mwalimu.s0 Mwalimu.hMismatch none).1 rfl).1

/-- C4: the claim's biconditional (END exactly when the pending list is
empty) is false: a model decision whose first entry is named by the
literal string `end` yields a non-empty pending list, yet the routing
function returns `end` and the edge dictionary maps it to `END`. -/
theorem c4_counterexample :
    Mwalimu.sC4.handoff_agents ≠ []
    ∧ Mwalimu.routing_after_routing_agent Mwalimu.sC4 = "end"
    ∧ Mwalimu.afterRoutingAgentMap "end" = some Mwalimu.BNode.terminalEnd := by
  refine ⟨by decide, by decide, by decide⟩

/-- C4 (amended): after a router- or tutor-node run, the routing function
returns `end` (mapped to the terminal state) whenever the pending list is
empty, and otherwise returns the agent name of the first pending handoff
-- which reaches `END` also in the degenerate case where that name is
itself the literal `end`. -/
theorem c4_amended_routing : ∀ s : Mwalimu.MState,
    (s.handoff_agents = [] →
      Mwalimu.routing_after_routing_agent s = "end"
      ∧ Mwalimu.routing_after_tutor_agent s = "end"
      ∧ Mwalimu.afterRoutingAgentMap "end" = some Mwalimu.BNode.terminalEnd
      ∧ Mwalimu.afterTutorAgentMap "end" = some Mwalimu.BNode.terminalEnd)
    ∧ ∀ (a : String) (rest : List String), s.handoff_agents = a :: rest →
      Mwalimu.routing_after_routing_agent s = a
      ∧ Mwalimu.routing_after_tutor_agent s = a := by
  intro s
  constructor
  · intro hempty
    refine ⟨?_, ?_, by decide, by decide⟩ <;>
      simp [Mwalimu.routing_after_routing_agent, Mwalimu.routing_after_tutor_agent, hempty]
  · intro a rest hcons
    constructor <;>
      simp [Mwalimu.routing_after_routing_agent, Mwalimu.routing_after_tutor_agent, hcons]

/-- C4 witness: the empty case on a fresh state and the non-empty case on
the state produced by parsing `hEnd`. -/
theorem c4_witness :
    Mwalimu.routing_after_routing_agent Mwalimu.s0 = "end"
    ∧ Mwalimu.routing_after_routing_agent Mwalimu.sC4 = "end" :=
  ⟨((c4_amended_routing Mwalimu.s0).1 rfl).1,
   ((c4_amended_routing Mwalimu.sC4).2 "end" [] (by decide)).1⟩

/-- C5: the claim asserts a fallback to the node's default successor when
the first handoff's target is outside the allow-list, with the rejection
recorded in node_history.  It is false: the routing function returns the
disallowed name unchanged (not `end`), the edge dictionary has no entry
for it, and the step of the graph has no transition at all (the turn
fails at the framework, and the routing functions -- which are pure and
return only a string -- record nothing). -/
theorem c5_counterexample :
    Mwalimu.routing_after_routing_agent Mwalimu.sC5 = "goal_agent"
    ∧ Mwalimu.routing_after_routing_agent Mwalimu.sC5 ≠ "end"
    ∧ Mwalimu.afterRoutingAgentMap "goal_agent" = none
    ∧ Mwalimu.stepB Mwalimu.oGoal (Mwalimu.BNode.routing_agent, Mwalimu.s0) = none := by
  refine ⟨by decide, by decide, by decide, by decide⟩

/-- C5 (amended): the routing functions perform no allow-list check: with
a non-empty pending list they return the first handoff's agent name
unconditionally, and any name outside the node's conditional-edge
dictionary has no transition (no fallback successor, nothing recorded). -/
theorem c5_amended_no_allowlist : ∀ (s : Mwalimu.MState) (a : String) (rest : List String),
    s.handoff_agents = a :: rest →
      Mwalimu.routing_after_routing_agent s = a
      ∧ Mwalimu.routing_after_tutor_agent s = a
      ∧ (¬(a = "respond_to_user" ∨ a = "tutor_agent" ∨ a = "end") →
          Mwalimu.afterRoutingAgentMap a = none)
      ∧ (¬(a = "respond_to_user" ∨ a = "tavily_agent" ∨ a = "end") →
          Mwalimu.afterTutorAgentMap a = none) := by
  intro s a rest h
  refine ⟨by simp [Mwalimu.routing_after_routing_agent, h],
    by simp [Mwalimu.routing_after_tutor_agent, h], ?_, ?_⟩
  · intro hnot
    push_neg at hnot
    simp [Mwalimu.afterRoutingAgentMap, hnot.1, hnot.2.1, hnot.2.2]
  · intro hnot
    push_neg at hnot
    simp [Mwalimu.afterTutorAgentMap, hnot.1, hnot.2.1, hnot.2.2]

/-- C5 witness: on the state produced by parsing `hGoal`, the routing
function returns the disallowed target and the edge dictionary rejects
it. -/
theorem c5_witness :
    Mwalimu.routing_after_routing_agent Mwalimu.sC5 = "goal_agent"
    ∧ Mwalimu.afterRoutingAgentMap "goal_agent" = none :=
  ⟨(c5_amended_no_allowlist Mwalimu.sC5 "goal_agent" [] (by decide)).1,
   (c5_amended_no_allowlist Mwalimu.sC5 "goal_agent" [] (by decide)).2.2.1 (by decide)⟩

/-- C6: the claim asserts that every node invocation (router, tutor,
tavily) appends exactly one node-history entry.  The tavily node appends
none: invoking it on a state with one history entry leaves the history
unchanged at length one, so the history cannot count that invocation. -/
theorem c6_counterexample :
    (Mwalimu.applyDelta Mwalimu.sHist (Mwalimu.tavily_agent Mwalimu.sHist (Except.ok "searched"))).node_history
      = Mwalimu.sHist.node_history
    ∧ Mwalimu.sHist.node_history.length = 1 := by
  refine ⟨by decide, by decide⟩

/-- C6 (amended): the GoalGetter router appends exactly one node-history
entry per invocation, the backend router and tutor append at least one
(one on a model error or clean success, two when the extraction loop
itself raises) and never remove existing entries, and the tavily node
appends none; node_history is therefore append-only across a turn but its
length counts only router/tutor invocations. -/
theorem c6_amended_history : ∀ (s : Mwalimu.MState) (sg : GoalGetter.GState)
    (r : Except String Mwalimu.Handoff) (rg : Except String GoalGetter.RouterOutput)
    (t : Except String String),
    (GoalGetter.router_node sg rg).node_history.length = sg.node_history.length + 1
    ∧ (∃ l, l ≠ [] ∧ (Mwalimu.applyDelta s (Mwalimu.router_node s r)).node_history
        = s.node_history ++ l)
    ∧ (∃ l, l ≠ [] ∧ (Mwalimu.applyDelta s (Mwalimu.tutor_node s r)).node_history
        = s.node_history ++ l)
    ∧ (Mwalimu.applyDelta s (Mwalimu.tavily_agent s t)).node_history = s.node_history := by
  intro s sg r rg t
  refine ⟨?_, ?_, ?_, ?_⟩
  · cases rg <;> simp [GoalGetter.router_node]
  · rcases r with e | h
    · exact ⟨[Mwalimu.errorEntry "router" ("Error in router node: " ++ e)],
        by simp, rfl⟩
    · cases hscan : Mwalimu.routerScan h.handoff_agents with
      | error e =>
        refine ⟨[Mwalimu.decisionEntry "router" h,
          Mwalimu.errorEntry "router" ("Error in router node: " ++ e)], by simp, ?_⟩
        rw [Mwalimu.router_node_scan_err s h e hscan]
        simp [Mwalimu.routerErrorDelta, Mwalimu.applyDelta, Mwalimu.errorEntry,
          Mwalimu.decisionEntry]
      | ok m =>
        refine ⟨[Mwalimu.decisionEntry "router" h], by simp, ?_⟩
        rw [Mwalimu.router_node_scan_ok s h m hscan]
        simp [Mwalimu.applyDelta, Mwalimu.decisionEntry]
  · rcases r with e | h
    · exact ⟨[Mwalimu.errorEntry "tutor" ("Error in tutor node: " ++ e)],
        by simp, rfl⟩
    · cases hscan : Mwalimu.tutorScan h.handoff_agents with
      | error e =>
        refine ⟨[Mwalimu.decisionEntry "tutor" h,
          Mwalimu.errorEntry "tutor" ("Error in tutor node: " ++ e)], by simp, ?_⟩
        rw [Mwalimu.tutor_node_scan_err s h e hscan]
        simp [Mwalimu.tutorErrorDelta, Mwalimu.applyDelta, Mwalimu.errorEntry,
          Mwalimu.decisionEntry]
      | ok m =>
        refine ⟨[Mwalimu.decisionEntry "tutor" h], by simp, ?_⟩
        rw [Mwalimu.tutor_node_scan_ok s h m hscan]
        simp [Mwalimu.applyDelta, Mwalimu.decisionEntry]
  · cases t <;> rfl

/-- C7: the claim asserts every node invocation increments its own attempt
counter by exactly one.  On the tutor node's error path the returned delta
omits the counter, so the merged state keeps the old value: invoking the
tutor with a failing model on five prior attempts leaves the counter at
five, not six. -/
theorem c7_counterexample :
    (Mwalimu.applyDelta Mwalimu.sC7 (Mwalimu.tutor_node Mwalimu.sC7 (Except.error "boom"))).tutor_attempts
      = 5 := by decide

/-- C7 (amended): each node touches only its own attempt counter and
counters never decrease; the GoalGetter router and the tavily node
increment their counter by exactly one on every invocation, while the
backend tutor and router persist the increment only on non-error paths
(the error delta omits the counter, leaving it unchanged). -/
theorem c7_amended_counters : ∀ (sg : GoalGetter.GState)
    (rg : Except String GoalGetter.RouterOutput) (s : Mwalimu.MState)
    (r : Except String Mwalimu.Handoff) (t : Except String String),
    (GoalGetter.router_node sg rg).router_attempts = sg.router_attempts + 1
    ∧ (GoalGetter.router_node sg rg).goal_attempts = sg.goal_attempts
    ∧ (GoalGetter.router_node sg rg).habit_attempts = sg.habit_attempts
    ∧ (GoalGetter.router_node sg rg).memory_attempts = sg.memory_attempts
    ∧ (GoalGetter.router_node sg rg).progress_attempts = sg.progress_attempts
    ∧ (Mwalimu.applyDelta s (Mwalimu.tavily_agent s t)).tavily_attempts = s.tavily_attempts + 1
    ∧ (Mwalimu.applyDelta s (Mwalimu.tavily_agent s t)).router_attempts = s.router_attempts
    ∧ (Mwalimu.applyDelta s (Mwalimu.tavily_agent s t)).tutor_attempts = s.tutor_attempts
    ∧ ((Mwalimu.applyDelta s (Mwalimu.tutor_node s r)).tutor_attempts = s.tutor_attempts + 1
        ∨ (Mwalimu.applyDelta s (Mwalimu.tutor_node s r)).tutor_attempts = s.tutor_attempts)
    ∧ (Mwalimu.applyDelta s (Mwalimu.tutor_node s r)).router_attempts = s.router_attempts
    ∧ (Mwalimu.applyDelta s (Mwalimu.tutor_node s r)).tavily_attempts = s.tavily_attempts
    ∧ ((Mwalimu.applyDelta s (Mwalimu.router_node s r)).router_attempts = s.router_attempts + 1
        ∨ (Mwalimu.applyDelta s (Mwalimu.router_node s r)).router_attempts = s.router_attempts)
    ∧ (Mwalimu.applyDelta s (Mwalimu.router_node s r)).tutor_attempts = s.tutor_attempts
    ∧ (Mwalimu.applyDelta s (Mwalimu.router_node s r)).tavily_attempts = s.tavily_attempts
    ∧ s.tutor_attempts ≤ (Mwalimu.applyDelta s (Mwalimu.tutor_node s r)).tutor_attempts := by
  intro sg rg s r t
  refine ⟨?_, ?_, ?_, ?_, ?_, ?_, ?_, ?_,
    (Mwalimu.tutor_node_counters s r).1, (Mwalimu.tutor_node_counters s r).2.1,
    (Mwalimu.tutor_node_counters s r).2.2,
    (Mwalimu.router_node_counters s r).1, (Mwalimu.router_node_counters s r).2.1,
    (Mwalimu.router_node_counters s r).2.2, ?_⟩
  · cases rg <;> rfl
  · cases rg <;> rfl
  · cases rg <;> rfl
  · cases rg <;> rfl
  · cases rg <;> rfl
  · cases t <;> rfl
  · cases t <;> rfl
  · cases t <;> rfl
  · rcases (Mwalimu.tutor_node_counters s r).1 with h | h <;> omega

/-- C10: whenever the tutor node's returned dictionary carries an outgoing
`message_to_student`, that text is the `strip_markdown` image (bold and
italic markers, fenced code blocks and inline code removed) of the message
of a `respond_to_user` entry of the model's handoff list. -/
theorem c10_message_is_stripped : ∀ (s : Mwalimu.MState) (h : Mwalimu.Handoff) (t : String),
    (Mwalimu.tutor_node s (Except.ok h)).message_to_student = some (some t) →
    ∃ a, a ∈ h.handoff_agents ∧ a.agent_name = "respond_to_user" ∧
      ∃ p m, a.agent_specific_parameters = Mwalimu.AgentParams.respondP p ∧
        p.message_to_student = some m ∧ t = Mwalimu.strip_markdown m := by
  intro s h t hmsg
  cases hscan : Mwalimu.tutorScan h.handoff_agents with
  | error e =>
    rw [Mwalimu.tutor_node_scan_err s h e hscan] at hmsg
    exact absurd hmsg (by simp [Mwalimu.tutorErrorDelta])
  | ok m0 =>
    rw [Mwalimu.tutor_node_scan_ok s h m0 hscan] at hmsg
    have hmsg2 : Mwalimu.truthyOpt m0 = some t := Option.some.inj hmsg
    cases m0 with
    | none => exact absurd hmsg2 (by simp [Mwalimu.truthyOpt])
    | some m1 =>
      by_cases hm1 : m1 = ""
      · simp [Mwalimu.truthyOpt, hm1] at hmsg2
      · have ht : m1 = t := by simpa [Mwalimu.truthyOpt, hm1] using hmsg2
        obtain ⟨a, hmem, hname, p, m, hp, hm, hdisj⟩ :=
          Mwalimu.tutorScan_ok_some h.handoff_agents m1 hscan
        rcases hdisj with ⟨hme, hteq⟩ | ⟨hme, hteq⟩
        · exact absurd (hteq.trans hme) hm1
        · exact ⟨a, hmem, hname, p, m, hp, hm, ht.symm.trans hteq⟩

/-- C10 witness: a respond-to-user handoff carrying a bold-marked message
is delivered with the markers removed. -/
theorem c10_witness :
    ∃ a, a ∈ Mwalimu.hRespond.handoff_agents ∧ a.agent_name = "respond_to_user" ∧
      ∃ p m, a.agent_specific_parameters = Mwalimu.AgentParams.respondP p ∧
        p.message_to_student = some m ∧ "hello world" = Mwalimu.strip_markdown m := by
  apply c10_message_is_stripped Mwalimu.s0 Mwalimu.hRespond "hello world"
  have hscan : Mwalimu.tutorScan Mwalimu.hRespond.handoff_agents
      = Except.ok (some "hello world") := by
    show Except.ok (some (Mwalimu.strip_markdown "**hello** world"))
      = Except.ok (some "hello world")
    rw [Mwalimu.strip_markdown_eval]
  rw [Mwalimu.tutor_node_scan_ok Mwalimu.s0 Mwalimu.hRespond (some "hello world") hscan]
  rfl

end Goalgetter
